import Mathlib

/-!
Shallow embedding of `src/server.py` (class `XsukaxChatServer`).

Modelling conventions, chosen to mirror the Python source:
* Websocket handles are opaque `Nat` values; every `await ...send...` is
  recorded as an `SEvent` in the returned event list instead of performing IO.
* Wall-clock reads (`time.time()`) are threaded through as an explicit
  `now : Nat` argument.
* The RNG of `generate_user_id` is made explicit: the function consumes a
  list of candidate codes and returns the first one that passes the
  in-use check of the source (`user_id not in self.users`).
* Plain dicts (`self.users`, `self.user_data`, `self.key_status`) are total
  functions into `Option`; `None` means the key is absent.
* `defaultdict` fields (`self.friends`, `self.friend_requests`) are total
  functions into their default value.  This is the value semantics of a
  `defaultdict`: a key that is absent and a key that is present with the
  default value (`set()` / `[]`) are observationally equal through every read
  the server performs.  The two key-presence guards of `resume_session`
  (`current_id in self.friends`, `current_id in self.friend_requests`) are
  therefore rendered as tests against the default value.
* `self.messages` is kept as an association list (key insertion order is
  observable because the adoption path of `resume_session` iterates over
  `self.messages.keys()`).
-/

namespace Chat

abbrev Code := String

abbrev WS := Nat

/-- Pointwise update of a dict modelled as a total function. -/
def upd {α : Type} (f : Code → α) (k : Code) (v : α) : Code → α :=
  fun c => if c = k then v else f c

/-- `self.key_status[uid]` entries: `{private_key_loaded, public_key_loaded}`. -/
structure KeyStatus where
  private_key_loaded : Bool
  public_key_loaded : Bool
deriving DecidableEq

/-- `self.user_data[uid]` entries: `{websocket, public_key, last_seen}`. -/
structure UserDataRec where
  websocket : Option WS
  public_key : Option String
  last_seen : Nat
deriving DecidableEq

/-- Entries of `self.friend_requests[target]`: `{sender_id, timestamp}`. -/
structure FriendRequestRec where
  sender_id : Code
  timestamp : Nat
deriving DecidableEq

/-- Entries of `self.messages[conversation_id]`. -/
structure MessageRec where
  sender_id : Code
  target_id : Code
  encrypted_message : String
  timestamp : Nat
deriving DecidableEq

/-- Per-friend record produced by `get_friends`. -/
structure FriendInfo where
  user_id : Code
  public_key : Option String
  last_seen : Option Nat
  online : Bool
deriving DecidableEq

/-- The mutable state of `XsukaxChatServer.__init__` (lines 13-20). -/
structure ServerState where
  users : Code → Option WS
  user_data : Code → Option UserDataRec
  friends : Code → Finset Code
  friend_requests : Code → List FriendRequestRec
  messages : List (String × List MessageRec)
  key_status : Code → Option KeyStatus

/-- JSON payloads the server writes to a websocket. -/
inductive Payload where
  | user_id_assigned (user_id : Code)
  | pong
  | errorMsg (message : String)
  | key_status_updated (key_status : KeyStatus)
  | friend_request_received (sender_id : Code) (timestamp : Nat)
  | friend_request_sent (target_id : Code)
  | friend_added (friend_id : Code) (friend_public_key : Option String)
  | friend_request_rejected (user_id : Code)
  | message_received (sender_id : Code) (target_id : Code)
      (encrypted_message : String) (timestamp : Nat)
  | friends_list (friends : List FriendInfo)
  | conversation_messages (target_id : Code) (messages : List MessageRec)
deriving DecidableEq

/-- One observed network send: which websocket received which payload. -/
inductive SEvent where
  | toWs (ws : WS) (payload : Payload)
deriving DecidableEq

/-- First-match lookup in an association list (Python dict read). -/
def dget {α : Type} : List (String × α) → String → Option α
  | [], _ => none
  | kv :: rest, k => if kv.1 = k then some kv.2 else dget rest k

/-- Python dict write: replace in place if the key exists, else append. -/
def dictSet {α : Type} (m : List (String × α)) (k : String) (v : α) :
    List (String × α) :=
  if (dget m k).isSome then m.map (fun kv => if kv.1 = k then (k, v) else kv)
  else m ++ [(k, v)]

/-- Python `del d[k]`: drop the (unique) entry carrying the key. -/
def dictDel {α : Type} : List (String × α) → String → List (String × α)
  | [], _ => []
  | kv :: rest, k => if kv.1 = k then dictDel rest k else kv :: dictDel rest k

/-- The empty state built by `__init__` before `load_state` runs. -/
def initState : ServerState :=
  { users := fun _ => none
    user_data := fun _ => none
    friends := fun _ => ∅
    friend_requests := fun _ => []
    messages := []
    key_status := fun _ => none }

/-- Python `str.upper()`: character-wise ASCII upcasing. -/
def pyUpper (s : String) : String :=
  String.mk (s.data.map Char.toUpper)

/-- Python `str.strip()`: drop leading and trailing whitespace. -/
def pyStrip (s : String) : String :=
  String.mk (((s.data.dropWhile Char.isWhitespace).reverse.dropWhile
    Char.isWhitespace).reverse)

/-- Python string `<`: lexicographic comparison of code points. -/
def pyLtChars : List Char → List Char → Bool
  | [], [] => false
  | [], _ :: _ => true
  | _ :: _, [] => false
  | a :: as, b :: bs =>
      if a < b then true else if b < a then false else pyLtChars as bs

/-- Python string `<=` (`a <= b` iff `not (b < a)`), as used by `sorted`. -/
def pyLe (s t : String) : Bool :=
  !(pyLtChars t.data s.data)

/-- Python `s.split(sep)` on the underlying characters (single-char sep). -/
def splitChars (sep : Char) : List Char → List (List Char)
  | [] => [[]]
  | c :: rest =>
      let r := splitChars sep rest
      if c = sep then [] :: r
      else
        match r with
        | h :: t => (c :: h) :: t
        | [] => [[c]]

/-- Python `conv_id.split(sep)` for strings. -/
def pySplit (sep : Char) (s : String) : List String :=
  (splitChars sep s.data).map String.mk

/-- `generate_user_id` (lines 25-30) with the stream of random candidates made
explicit: returns the first candidate that is not a key of `self.users`.
Nothing else is consulted — in particular `self.user_data` (persisted
identities) and `self.friends` are not checked. -/
def generate_user_id (users : Code → Option WS) : List Code → Option Code
  | [] => none
  | c :: rest => if users c = none then some c else generate_user_id users rest

/-- `get_conversation_id` (lines 32-34): join of the two codes sorted
lexicographically. -/
def get_conversation_id (user1_id user2_id : Code) : String :=
  if pyLe user1_id user2_id then user1_id ++ "_" ++ user2_id
  else user2_id ++ "_" ++ user1_id

/-- `.upper().strip()` normalisation applied by `send_friend_request` and
`resume_session` to inbound codes. -/
def normalizeCode (s : String) : String :=
  pyStrip (pyUpper s)

/-- `ws_send` (lines 616-626): deliver to the bound socket, no-op when the
user id is not in `self.users`. -/
def wsSend (st : ServerState) (user_id : Code) (p : Payload) : List SEvent :=
  match st.users user_id with
  | some w => [SEvent.toWs w p]
  | none => []

/-- `send_error` (lines 167-176): an `error` payload through `ws_send`,
guarded by `user_id in self.users`. -/
def sendError (st : ServerState) (user_id : Code) (message : String) :
    List SEvent :=
  if (st.users user_id).isSome then wsSend st user_id (Payload.errorMsg message)
  else []

/-- The per-friend join of `get_friends` (lines 431-439). -/
def friendInfoOf (st : ServerState) (friend_id : Code) : FriendInfo :=
  { user_id := friend_id
    public_key := (st.user_data friend_id).bind (fun d => d.public_key)
    last_seen := (st.user_data friend_id).map (fun d => d.last_seen)
    online := (st.users friend_id).isSome }

/-- `get_friends` (lines 428-450).  Reads state only.  Python iterates the
`set` in unspecified order; the embedding fixes the lexicographic order. -/
def get_friends (st : ServerState) (user_id : Code) : List SEvent :=
  let friends_data := ((st.friends user_id).sort (· ≤ ·)).map (friendInfoOf st)
  wsSend st user_id (Payload.friends_list friends_data)

/-- Connection setup of `handle_client` (lines 41-69): register the fresh
code, send `user_id_assigned`, then proactively push the friends list.  The
code itself comes from `generate_user_id`. -/
def connect (ws : WS) (user_id : Code) (now : Nat) (st : ServerState) :
    ServerState × List SEvent :=
  let st1 : ServerState :=
    { st with
      users := upd st.users user_id (some ws)
      user_data := upd st.user_data user_id
        (some { websocket := some ws, public_key := none, last_seen := now })
      key_status := upd st.key_status user_id
        (some { private_key_loaded := false, public_key_loaded := false }) }
  (st1, SEvent.toWs ws (Payload.user_id_assigned user_id) ::
    get_friends st1 user_id)

/-- `set_key_status` (lines 220-237).  The request fields are `Option Bool`
(`data.get(..., False)` maps a missing field to `False`). -/
def set_key_status (user_id : Code) (private_in public_in : Option Bool)
    (st : ServerState) : ServerState × List SEvent :=
  let private_loaded := private_in.getD false
  let public_loaded := public_in.getD false
  match st.key_status user_id with
  | none => (st, [])
  | some ks =>
      let ks1 : KeyStatus :=
        { private_key_loaded := private_loaded
          public_key_loaded :=
            if public_loaded then public_loaded else ks.public_key_loaded }
      let st1 := { st with key_status := upd st.key_status user_id (some ks1) }
      (st1, wsSend st1 user_id (Payload.key_status_updated ks1))

/-- `send_friend_request` (lines 254-307). -/
def send_friend_request (sender_id : Code) (target_in : Option String)
    (now : Nat) (st : ServerState) : ServerState × List SEvent :=
  let target_id := normalizeCode (target_in.getD "")
  if target_id = "" ∨ target_id.length ≠ 6 then
    (st, sendError st sender_id "Invalid user ID format")
  else if st.users target_id = none then
    (st, sendError st sender_id "User ID not found or offline")
  else if target_id = sender_id then
    (st, sendError st sender_id "Cannot add yourself as friend")
  else if target_id ∈ st.friends sender_id then
    (st, sendError st sender_id "Already friends with this user")
  else if (st.friend_requests target_id).any
      (fun req => req.sender_id = sender_id) then
    (st, sendError st sender_id "Friend request already sent")
  else
    let request_data : FriendRequestRec :=
      { sender_id := sender_id, timestamp := now }
    let st1 := { st with
      friend_requests := upd st.friend_requests target_id
        (st.friend_requests target_id ++ [request_data]) }
    (st1,
      wsSend st1 target_id (Payload.friend_request_received sender_id now) ++
      wsSend st1 sender_id (Payload.friend_request_sent target_id))

/-- `respond_friend_request` (lines 309-377).  `sender_id` is used verbatim
(no `.upper()`); a missing field and an empty string are both falsy. -/
def respond_friend_request (user_id : Code) (sender_in : Option String)
    (accepted_in : Option Bool) (st : ServerState) :
    ServerState × List SEvent :=
  let sender_id := sender_in.getD ""
  if sender_id = "" then (st, sendError st user_id "Sender ID is required")
  else
    let original := st.friend_requests user_id
    let filtered := original.filter (fun req => req.sender_id ≠ sender_id)
    let st1 := { st with
      friend_requests := upd st.friend_requests user_id filtered }
    if filtered.length = original.length then
      (st1, sendError st1 user_id "Friend request not found")
    else if accepted_in.getD false then
      let friends1 := upd st1.friends user_id
        (insert sender_id (st1.friends user_id))
      let friends2 := upd friends1 sender_id
        (insert user_id (friends1 sender_id))
      let st2 := { st1 with friends := friends2 }
      (st2,
        wsSend st2 user_id (Payload.friend_added sender_id
          ((st2.user_data sender_id).bind (fun d => d.public_key))) ++
        (if (st2.users sender_id).isSome then
          wsSend st2 sender_id (Payload.friend_added user_id
            ((st2.user_data user_id).bind (fun d => d.public_key)))
        else []) ++
        get_friends st2 user_id ++
        (if (st2.users sender_id).isSome then get_friends st2 sender_id
         else []))
    else
      (st1,
        if (st1.users sender_id).isSome then
          wsSend st1 sender_id (Payload.friend_request_rejected user_id)
        else [])

/-- `send_message` (lines 379-426).  The friendship gate is the one-sided
test `target_id not in self.friends[sender_id]` of line 393. -/
def send_message (sender_id : Code) (target_in message_in : Option String)
    (now : Nat) (st : ServerState) : ServerState × List SEvent :=
  let target_id := target_in.getD ""
  let encrypted_message := message_in.getD ""
  if target_id = "" then
    (st, sendError st sender_id "Target user ID is required")
  else if encrypted_message = "" then
    (st, sendError st sender_id "Encrypted message is required")
  else if target_id ∉ st.friends sender_id then
    (st, sendError st sender_id "Not friends with this user")
  else
    let conversation_id := get_conversation_id sender_id target_id
    let message_data : MessageRec :=
      { sender_id := sender_id, target_id := target_id
        encrypted_message := encrypted_message, timestamp := now }
    let st1 := { st with
      messages := dictSet st.messages conversation_id
        ((dget st.messages conversation_id).getD [] ++ [message_data]) }
    (st1,
      wsSend st1 target_id (Payload.message_received sender_id target_id
        encrypted_message now) ++
      wsSend st1 sender_id (Payload.message_received sender_id target_id
        encrypted_message now))

/-- `get_messages` (lines 452-479).  `target_id` is used verbatim. -/
def get_messages (user_id : Code) (target_in : Option String)
    (st : ServerState) : ServerState × List SEvent :=
  let target_id := target_in.getD ""
  if target_id = "" then
    (st, sendError st user_id "Target user ID is required")
  else if target_id ∉ st.friends user_id then
    (st, sendError st user_id "Not friends with this user")
  else
    let conversation_id := get_conversation_id user_id target_id
    (st, wsSend st user_id (Payload.conversation_messages target_id
      ((dget st.messages conversation_id).getD [])))

/-- `cleanup_user` (lines 628-638): drop the live binding, keep the identity
record, refresh its `last_seen`. -/
def cleanup_user (user_id : Code) (now : Nat) (st : ServerState) :
    ServerState :=
  let st1 := { st with users := upd st.users user_id none }
  match st1.user_data user_id with
  | some d =>
      { st1 with
        user_data := upd st1.user_data user_id
          (some { d with last_seen := now }) }
  | none => st1

/-- `load_state` (lines 123-146) applied to a parsed snapshot:
`user_public_keys` rebuilds identity records (socketless) and key statuses,
`friends` replaces the friend map wholesale. -/
def load_state (user_public_keys : List (Code × String))
    (friends_map : List (Code × List Code)) (now : Nat) : ServerState :=
  { initState with
    user_data := fun c => (dget user_public_keys c).map
      (fun pub => { websocket := none, public_key := some pub, last_seen := now })
    key_status := fun c => (dget user_public_keys c).map
      (fun pub => { private_key_loaded := false, public_key_loaded := pub ≠ "" })
    friends := fun c => ((dget friends_map c).getD []).toFinset }

/-- The in-place rewrite of one friend set in the adoption path
(lines 561-564): `if current in fset: fset.discard(current); fset.add(new)`. -/
def replaceMem (old new : Code) (s : Finset Code) : Finset Code :=
  if old ∈ s then insert new (s.erase old) else s

/-- One iteration of the second migration loop (lines 578-582): create the
destination log if missing, extend it with the source log, delete the
source key. -/
def moveOne (m : List (String × List MessageRec)) (old_c new_c : String) :
    List (String × List MessageRec) :=
  let m1 := if (dget m new_c).isSome then m else m ++ [(new_c, [])]
  let m2 := dictSet m1 new_c ((dget m1 new_c).getD [] ++ (dget m1 old_c).getD [])
  dictDel m2 old_c

/-- The counterpart extraction of the migration loop (lines 574-575):
`other = parts[0] if parts[1] == current_id else parts[1]`. -/
def otherOf (current_id : Code) (k : String) : Code :=
  let parts := pySplit '_' k
  if parts.getD 1 "" = current_id then parts.getD 0 "" else parts.getD 1 ""

/-- The conversation migration of the adoption path (lines 569-584).  The
`to_move` list is computed first from a snapshot of the keys; an exception
while computing it (a matching key whose split has fewer than two parts, so
that `parts[1]` raises) is swallowed by the bare `except` before any move has
been applied, leaving the map unchanged. -/
def migrate_messages (current_id requested_id : Code)
    (msgs : List (String × List MessageRec)) :
    List (String × List MessageRec) :=
  let affected := (msgs.map Prod.fst).filter
    (fun k => current_id ∈ pySplit '_' k)
  if affected.all (fun k => 2 ≤ (pySplit '_' k).length) then
    let to_move := affected.map (fun k =>
      (k, get_conversation_id requested_id (otherOf current_id k)))
    to_move.foldl (fun m kv => moveOne m kv.1 kv.2) msgs
  else msgs

/-- `resume_session` (lines 481-614). -/
def resume_session (current_id : Code) (user_in : Option String) (now : Nat)
    (st : ServerState) : ServerState × List SEvent :=
  let requested_id := normalizeCode (user_in.getD "")
  if requested_id = "" ∨ requested_id.length ≠ 6 then
    (st, sendError st current_id "Invalid user ID format for resume")
  else if requested_id = current_id then
    (st, match st.users current_id with
      | some w => [SEvent.toWs w (Payload.user_id_assigned current_id)]
      | none => [])
  else if (st.users requested_id).isSome then
    (st, sendError st current_id "Requested ID is currently in use")
  else
    match st.users current_id with
    | none =>
        if (st.user_data requested_id).isSome then
          (st, match (st.user_data requested_id).bind (fun d => d.websocket) with
            | some w => [SEvent.toWs w (Payload.user_id_assigned requested_id)]
            | none => [])
        else (st, sendError st current_id "Current session not found")
    | some websocket =>
        match st.user_data requested_id with
        | some d =>
            -- merge path (lines 519-541): rebind onto the existing record,
            -- then drop every temporary allocation of `current_id`
            let st1 : ServerState :=
              { users := upd (upd st.users requested_id (some websocket))
                  current_id none
                user_data := upd (upd st.user_data requested_id
                    (some { d with websocket := some websocket,
                                   last_seen := now })) current_id none
                friends := upd st.friends current_id ∅
                friend_requests := upd st.friend_requests current_id []
                messages := st.messages
                key_status := upd
                  (if (st.key_status current_id).isSome ∧
                      st.key_status requested_id = none then
                    upd st.key_status requested_id (st.key_status current_id)
                  else st.key_status) current_id none }
            (st1, SEvent.toWs websocket (Payload.user_id_assigned requested_id)
              :: get_friends st1 requested_id)
        | none =>
            -- adoption path (lines 542-595): rename the transient state
            let dcur := (st.user_data current_id).getD
              { websocket := some websocket, public_key := none
                last_seen := now }
            let friends1 := upd st.friends requested_id
              (st.friends requested_id ∪ st.friends current_id)
            let friends2 : Code → Finset Code :=
              fun c => replaceMem current_id requested_id (friends1 c)
            let st1 : ServerState :=
              { users := upd (upd st.users requested_id (some websocket))
                  current_id none
                user_data := upd (upd st.user_data requested_id
                    (some { dcur with websocket := some websocket,
                                      last_seen := now })) current_id none
                friends := upd friends2 current_id ∅
                friend_requests := upd
                  (if st.friend_requests current_id ≠ [] then
                    upd st.friend_requests requested_id
                      (st.friend_requests current_id)
                  else st.friend_requests) current_id []
                messages := migrate_messages current_id requested_id st.messages
                key_status := upd (upd st.key_status requested_id
                    (some ((st.key_status current_id).getD
                      { private_key_loaded := false
                        public_key_loaded := false }))) current_id none }
            (st1, SEvent.toWs websocket (Payload.user_id_assigned requested_id)
              :: get_friends st1 requested_id)

/-! ### Concrete execution traces

All traces start from `initState` (respectively from a `load_state` of a
snapshot a previous run could have saved), so every state below is reachable
by the server. -/

/-- A client connects and is assigned `RRRRRR`. -/
def s1 : ServerState := (connect 0 "RRRRRR" 1 initState).1

/-- ... and disconnects; its identity record is retained. -/
def s2 : ServerState := cleanup_user "RRRRRR" 2 s1

/-- A second client connects as `TTTTTT`. -/
def s3 : ServerState := (connect 1 "TTTTTT" 3 s2).1

/-- A third client connects as `FFFFFF`. -/
def s4 : ServerState := (connect 2 "FFFFFF" 4 s3).1

/-- `TTTTTT` sends a friend request to `FFFFFF`. -/
def s5 : ServerState := (send_friend_request "TTTTTT" (some "FFFFFF") 5 s4).1

/-- `FFFFFF` accepts: the friendship is mutual here. -/
def s6 : ServerState :=
  (respond_friend_request "FFFFFF" (some "TTTTTT") (some true) s5).1

/-- `TTTTTT` resumes the persisted identity `RRRRRR` (merge path): its own
friend set is dropped while `FFFFFF` still lists `TTTTTT`. -/
def s7 : ServerState := (resume_session "TTTTTT" (some "RRRRRR") 7 s6).1

/-- A fresh client connects and is handed the retired code `TTTTTT` again
(the generator only rejects codes with a live connection). -/
def s8 : ServerState := (connect 3 "TTTTTT" 8 s7).1

/-- Snapshot restore: persisted mutual friendship between `RRRRRR` and
`PPPPPP`, neither with a stored public key. -/
def t0 : ServerState :=
  load_state [] [("RRRRRR", ["PPPPPP"]), ("PPPPPP", ["RRRRRR"])] 0

/-- A fresh client connects; the generator may hand it `PPPPPP` because only
live codes are checked. -/
def t1 : ServerState := (connect 5 "PPPPPP" 1 t0).1

/-- The client adopts `RRRRRR` (no identity record exists for it). -/
def t2 : ServerState := (resume_session "PPPPPP" (some "RRRRRR") 2 t1).1

/-- `TTTTTT` and `FFFFFF` connect and `TTTTTT` files a friend request. -/
def u1 : ServerState := (connect 1 "TTTTTT" 1 initState).1

def u2 : ServerState := (connect 2 "FFFFFF" 2 u1).1

def u3 : ServerState := (send_friend_request "TTTTTT" (some "FFFFFF") 3 u2).1

/-- With the request still pending, `TTTTTT` adopts the unused `RRRRRR`. -/
def u4 : ServerState := (resume_session "TTTTTT" (some "RRRRRR") 4 u3).1

/-- A state with one persisted identity record (`AAAAAA`) and no live
connection, as produced by a restart after `AAAAAA` stored a public key. -/
def persistedOnlyState : ServerState := load_state [("AAAAAA", "PGPKEY")] [] 0

/-- A state with `ABCDEF` live on socket `4` and its public-key flag already
raised (as after a successful `set_public_key`). -/
def keyWitnessState : ServerState :=
  { initState with
    users := upd initState.users "ABCDEF" (some 4)
    key_status := upd initState.key_status "ABCDEF"
      (some { private_key_loaded := false, public_key_loaded := true }) }

/-! ### Claim theorems -/

/-- C1: the claim says a freshly allocated code collides with no known code,
including codes that exist only as persisted identity records.  The code
checks candidates against `self.users` (live connections) only: in a
reachable state whose only knowledge of `AAAAAA` is a persisted identity
record, `generate_user_id` happily returns `AAAAAA`, and the subsequent
connect bookkeeping overwrites the persisted record (dropping its stored
public key).  This contradicts both the stated allocation contract and the
function's own uniqueness purpose, so the code is the bug. -/
theorem generate_user_id_ignores_persisted :
    generate_user_id persistedOnlyState.users ["AAAAAA"] = some "AAAAAA" ∧
    persistedOnlyState.user_data "AAAAAA" =
      some { websocket := none, public_key := some "PGPKEY", last_seen := 0 } ∧
    (connect 9 "AAAAAA" 3 persistedOnlyState).1.user_data "AAAAAA" =
      some { websocket := some 9, public_key := none, last_seen := 3 } := by
  decide

/-- C9: the claim says no code is ever its own friend.  Reachable
counter-trace: restore a snapshot with persisted friendship
`RRRRRR ↔ PPPPPP`, let a fresh connection be assigned the non-live code
`PPPPPP` (allowed by `generate_user_id`), and let it adopt `RRRRRR`.  The
adoption merge unions `PPPPPP`'s persisted friend set `{RRRRRR}` into
`RRRRRR`'s own set and the reference rewrite then turns the stale `PPPPPP`
membership into `RRRRRR`, leaving `RRRRRR` a friend of itself — contradicting
the self-friendship guard the server itself enforces in
`send_friend_request`. -/
theorem adopt_creates_self_friend :
    generate_user_id t0.users ["PPPPPP"] = some "PPPPPP" ∧
    "PPPPPP" ∉ t1.friends "PPPPPP" ∧ "RRRRRR" ∉ t1.friends "RRRRRR" ∧
    "RRRRRR" ∈ t2.friends "RRRRRR" := by
  decide

/-- C2: while a code `X` is bound to a live connection, any other
connection's `resume_session{X}` fails with the Conflict error
("Requested ID is currently in use") and returns the state unchanged in
every component. -/
theorem resume_conflict_noop (st : ServerState) (current X : Code)
    (w wc : WS) (now : Nat)
    (hX : st.users X = some w) (hcur : st.users current = some wc)
    (hne : X ≠ current) (hlen : X.length = 6) (hcanon : normalizeCode X = X) :
    resume_session current (some X) now st =
      (st, [SEvent.toWs wc
        (Payload.errorMsg "Requested ID is currently in use")]) := by
  have hne2 : X ≠ "" := by
    intro h
    rw [h] at hlen
    simp at hlen
  simp [resume_session, hcanon, hlen, hne2, hne, hX, sendError, wsSend, hcur]

/-- Witness for C2 at a concrete reachable state: `FFFFFF` is live in `u2`,
and `TTTTTT` fails to resume it. -/
theorem resume_conflict_noop_witness :
    u2.users "FFFFFF" = some 2 ∧
    resume_session "TTTTTT" (some "FFFFFF") 9 u2 =
      (u2, [SEvent.toWs 1
        (Payload.errorMsg "Requested ID is currently in use")]) :=
  ⟨by decide, resume_conflict_noop u2 "TTTTTT" "FFFFFF" 2 1 9 (by decide)
    (by decide) (by decide) (by decide) (by decide)⟩

/-- C8: `set_key_status` on a known code stores `private_key_loaded`
unconditionally, raises `public_key_loaded` monotonically (a `false` report
never unsets a `true` flag: the stored value becomes `q || old`), and sends
the updated status back. -/
theorem set_key_status_spec (st : ServerState) (uid : Code) (ks : KeyStatus)
    (p q : Bool) (w : WS)
    (hks : st.key_status uid = some ks) (hw : st.users uid = some w) :
    set_key_status uid (some p) (some q) st =
      ({ st with
          key_status := upd st.key_status uid
            (some { private_key_loaded := p
                    public_key_loaded := q || ks.public_key_loaded }) },
       [SEvent.toWs w (Payload.key_status_updated
          { private_key_loaded := p
            public_key_loaded := q || ks.public_key_loaded })]) := by
  cases q <;> simp [set_key_status, hks, wsSend, hw]

/-- Witness for C8: with `public_key_loaded` already `true`, a report of
`(private := true, public := false)` keeps the public flag `true`. -/
theorem set_key_status_spec_witness :
    keyWitnessState.key_status "ABCDEF" =
      some { private_key_loaded := false, public_key_loaded := true } ∧
    set_key_status "ABCDEF" (some true) (some false) keyWitnessState =
      ({ keyWitnessState with
          key_status := upd keyWitnessState.key_status "ABCDEF"
            (some { private_key_loaded := true, public_key_loaded := true }) },
       [SEvent.toWs 4 (Payload.key_status_updated
          { private_key_loaded := true, public_key_loaded := true })]) :=
  ⟨by decide, set_key_status_spec keyWitnessState "ABCDEF"
    { private_key_loaded := false, public_key_loaded := true } true false 4
    (by decide) (by decide)⟩

/-- C10: a `set_key_status` message with a missing field treats it as
`False`: omitting `private_key_loaded` clears the stored private flag
(whatever the other field says), and omitting `public_key_loaded` leaves the
stored public flag unchanged (whatever the other field says). -/
theorem set_key_status_missing_fields (st : ServerState) (uid : Code)
    (ks : KeyStatus) (pOpt qOpt : Option Bool)
    (hks : st.key_status uid = some ks) :
    ((set_key_status uid none qOpt st).1.key_status uid).map
        (fun r => r.private_key_loaded) = some false ∧
    ((set_key_status uid pOpt none st).1.key_status uid).map
        (fun r => r.public_key_loaded) = some ks.public_key_loaded := by
  constructor
  · cases qOpt with
    | none => simp [set_key_status, hks, upd]
    | some q => cases q <;> simp [set_key_status, hks, upd]
  · cases pOpt with
    | none => simp [set_key_status, hks, upd]
    | some p => simp [set_key_status, hks, upd]

/-- Witness for C10 at the concrete state `keyWitnessState`. -/
theorem set_key_status_missing_fields_witness :
    keyWitnessState.key_status "ABCDEF" =
      some { private_key_loaded := false, public_key_loaded := true } ∧
    ((set_key_status "ABCDEF" none (some true) keyWitnessState).1.key_status
        "ABCDEF").map (fun r => r.private_key_loaded) = some false ∧
    ((set_key_status "ABCDEF" (some true) none keyWitnessState).1.key_status
        "ABCDEF").map (fun r => r.public_key_loaded) = some true :=
  ⟨by decide, set_key_status_missing_fields keyWitnessState "ABCDEF"
    { private_key_loaded := false, public_key_loaded := true }
    (some true) (some true) (by decide)⟩

/-- C6 counterexample: codes are canonicalized only by `send_friend_request`
and `resume_session`.  `send_message` compares the raw `target_id`, so in
the reachable state `s6` (where `TTTTTT` and `FFFFFF` are mutual friends and
both online) sending to `"ffffff"` fails with a NotFriends error and logs
nothing, while sending to `"FFFFFF"` succeeds — the lowercase form does not
behave like its uppercase form. -/
theorem send_message_case_sensitive :
    "FFFFFF" ∈ s6.friends "TTTTTT" ∧
    normalizeCode "ffffff" = "FFFFFF" ∧
    (send_message "TTTTTT" (some "ffffff") (some "x") 9 s6).2 =
      [SEvent.toWs 1 (Payload.errorMsg "Not friends with this user")] ∧
    (send_message "TTTTTT" (some "ffffff") (some "x") 9 s6).1.messages = [] ∧
    (send_message "TTTTTT" (some "FFFFFF") (some "x") 9 s6).2 =
      [SEvent.toWs 2 (Payload.message_received "TTTTTT" "FFFFFF" "x" 9),
       SEvent.toWs 1 (Payload.message_received "TTTTTT" "FFFFFF" "x" 9)] := by
  decide

/-- C6 (amended): the two actions that do canonicalize — `resume_session`
and `send_friend_request` — depend on the supplied code only through its
uppercased, stripped form: two inputs with the same canonical form behave
identically in every component of state and output. -/
theorem code_canonicalization (st : ServerState) (u : Code) (a b : String)
    (now : Nat) (h : normalizeCode a = normalizeCode b) :
    send_friend_request u (some a) now st =
      send_friend_request u (some b) now st ∧
    resume_session u (some a) now st = resume_session u (some b) now st := by
  constructor
  · simp only [send_friend_request, Option.getD_some, h]
  · simp only [resume_session, Option.getD_some, h]

/-- Witness for C6 (amended): `"ffffff"` and `"FFFFFF"` are interchangeable
for `send_friend_request` and `resume_session` at the reachable state `u2`. -/
theorem code_canonicalization_witness :
    normalizeCode "ffffff" = normalizeCode "FFFFFF" ∧
    (send_friend_request "TTTTTT" (some "ffffff") 9 u2 =
      send_friend_request "TTTTTT" (some "FFFFFF") 9 u2 ∧
    resume_session "TTTTTT" (some "ffffff") 9 u2 =
      resume_session "TTTTTT" (some "FFFFFF") 9 u2) :=
  ⟨by decide, code_canonicalization u2 "TTTTTT" "ffffff" "FFFFFF" 9 (by decide)⟩

/-- C5 counterexample: the friendship gate of `send_message` is the
one-sided test `target in friends[sender]`.  State `s7` is reachable (built
from `initState` above) and asymmetric: `FFFFFF` still lists the retired
`TTTTTT` although `TTTTTT` lists nobody.  The symmetric friend edge does not
exist, yet `FFFFFF`'s send succeeds: the ciphertext is appended to the pair
log and echoed, with no NotFriends error. -/
theorem send_message_one_sided_gate :
    "FFFFFF" ∉ s7.friends "TTTTTT" ∧ "TTTTTT" ∈ s7.friends "FFFFFF" ∧
    (send_message "FFFFFF" (some "TTTTTT") (some "c1") 9 s7).2 =
      [SEvent.toWs 2 (Payload.message_received "FFFFFF" "TTTTTT" "c1" 9)] ∧
    dget (send_message "FFFFFF" (some "TTTTTT") (some "c1") 9 s7).1.messages
      "FFFFFF_TTTTTT" =
      some [{ sender_id := "FFFFFF", target_id := "TTTTTT",
              encrypted_message := "c1", timestamp := 9 }] := by
  decide

/-- C5 (amended): for non-empty target and message, `send_message` fails
with the NotFriends error and changes nothing unless the target is in the
sender's friend set (one-sided); when it is, exactly one entry is appended
to the log under the canonical pair key, the `message_received` event goes
to the target when online, and the same event is echoed to the sender. -/
theorem send_message_spec (st : ServerState) (sender target msg : String)
    (now : Nat) (w : WS)
    (ht : target ≠ "") (hm : msg ≠ "") (hw : st.users sender = some w) :
    (target ∉ st.friends sender →
      send_message sender (some target) (some msg) now st =
        (st, [SEvent.toWs w (Payload.errorMsg "Not friends with this user")])) ∧
    (target ∈ st.friends sender →
      (send_message sender (some target) (some msg) now st).1 =
        { st with
          messages := dictSet st.messages (get_conversation_id sender target)
            ((dget st.messages (get_conversation_id sender target)).getD [] ++
              [{ sender_id := sender, target_id := target,
                 encrypted_message := msg, timestamp := now }]) } ∧
      (send_message sender (some target) (some msg) now st).2 =
        (match st.users target with
          | some wt => [SEvent.toWs wt
              (Payload.message_received sender target msg now)]
          | none => []) ++
        [SEvent.toWs w (Payload.message_received sender target msg now)]) := by
  constructor
  · intro hnf
    simp [send_message, ht, hm, hnf, sendError, wsSend, hw]
  · intro hf
    refine ⟨by simp [send_message, ht, hm, hf], ?_⟩
    cases hwt : st.users target <;>
      simp [send_message, ht, hm, hf, wsSend, hw, hwt]

/-- Witness for C5 (amended) at the reachable state `s6`, where the
friendship is mutual and both parties online. -/
theorem send_message_spec_witness :
    s6.users "TTTTTT" = some 1 ∧
    (("FFFFFF" : String) ∉ s6.friends "TTTTTT" →
      send_message "TTTTTT" (some "FFFFFF") (some "m1") 9 s6 =
        (s6, [SEvent.toWs 1 (Payload.errorMsg "Not friends with this user")])) ∧
    (("FFFFFF" : String) ∈ s6.friends "TTTTTT" →
      (send_message "TTTTTT" (some "FFFFFF") (some "m1") 9 s6).1 =
        { s6 with
          messages := dictSet s6.messages
            (get_conversation_id "TTTTTT" "FFFFFF")
            ((dget s6.messages (get_conversation_id "TTTTTT" "FFFFFF")).getD []
              ++ [{ sender_id := "TTTTTT", target_id := "FFFFFF",
                    encrypted_message := "m1", timestamp := 9 }]) } ∧
      (send_message "TTTTTT" (some "FFFFFF") (some "m1") 9 s6).2 =
        (match s6.users "FFFFFF" with
          | some wt => [SEvent.toWs wt
              (Payload.message_received "TTTTTT" "FFFFFF" "m1" 9)]
          | none => []) ++
        [SEvent.toWs 1 (Payload.message_received "TTTTTT" "FFFFFF" "m1" 9)]) :=
  ⟨by decide, send_message_spec s6 "TTTTTT" "FFFFFF" "m1" 9 1 (by decide)
    (by decide) (by decide)⟩

/-- C7 counterexample: the AlreadyFriends test is the one-sided membership
`target in friends[sender]`, not edge existence.  In the reachable state
`s8`, `FFFFFF` still lists the recycled live code `TTTTTT` while `TTTTTT`
lists nobody (no edge, no pending request), so per the claim `FFFFFF`'s
request should enqueue a pending request and notify `TTTTTT`; the server
instead rejects it with "Already friends with this user" and enqueues
nothing. -/
theorem friend_request_one_sided_already :
    s8.users "TTTTTT" = some 3 ∧
    "TTTTTT" ∈ s8.friends "FFFFFF" ∧ "FFFFFF" ∉ s8.friends "TTTTTT" ∧
    s8.friend_requests "TTTTTT" = [] ∧
    (send_friend_request "FFFFFF" (some "TTTTTT") 9 s8).2 =
      [SEvent.toWs 2 (Payload.errorMsg "Already friends with this user")] ∧
    (send_friend_request "FFFFFF" (some "TTTTTT") 9 s8).1.friend_requests
      "TTTTTT" = [] := by
  decide

/-- C7 (amended): ordered behaviour of `send_friend_request`: InvalidInput
when the canonical target is malformed or not a live code or equals the
sender; AlreadyFriends when the target is in the sender's friend set (the
one-sided membership, which coincides with edge existence in symmetric
states); DuplicateRequest when a pending request from the same sender
exists; otherwise exactly one pending request `{sender, now}` is appended to
the target's pending list and the target (online here) and sender are
notified. -/
theorem send_friend_request_spec (st : ServerState) (sender : Code)
    (inp : String) (now : Nat) (w : WS) (hw : st.users sender = some w) :
    (normalizeCode inp = "" ∨ (normalizeCode inp).length ≠ 6 →
      send_friend_request sender (some inp) now st =
        (st, [SEvent.toWs w (Payload.errorMsg "Invalid user ID format")])) ∧
    ((normalizeCode inp).length = 6 → st.users (normalizeCode inp) = none →
      send_friend_request sender (some inp) now st =
        (st, [SEvent.toWs w
          (Payload.errorMsg "User ID not found or offline")])) ∧
    ((normalizeCode inp).length = 6 → (st.users (normalizeCode inp)).isSome →
      normalizeCode inp = sender →
      send_friend_request sender (some inp) now st =
        (st, [SEvent.toWs w
          (Payload.errorMsg "Cannot add yourself as friend")])) ∧
    ((normalizeCode inp).length = 6 → (st.users (normalizeCode inp)).isSome →
      normalizeCode inp ≠ sender → normalizeCode inp ∈ st.friends sender →
      send_friend_request sender (some inp) now st =
        (st, [SEvent.toWs w
          (Payload.errorMsg "Already friends with this user")])) ∧
    ((normalizeCode inp).length = 6 → (st.users (normalizeCode inp)).isSome →
      normalizeCode inp ≠ sender → normalizeCode inp ∉ st.friends sender →
      (∃ r ∈ st.friend_requests (normalizeCode inp), r.sender_id = sender) →
      send_friend_request sender (some inp) now st =
        (st, [SEvent.toWs w
          (Payload.errorMsg "Friend request already sent")])) ∧
    (∀ wt, (normalizeCode inp).length = 6 →
      st.users (normalizeCode inp) = some wt →
      normalizeCode inp ≠ sender → normalizeCode inp ∉ st.friends sender →
      (∀ r ∈ st.friend_requests (normalizeCode inp), r.sender_id ≠ sender) →
      send_friend_request sender (some inp) now st =
        ({ st with
            friend_requests := upd st.friend_requests (normalizeCode inp)
              (st.friend_requests (normalizeCode inp) ++
                [{ sender_id := sender, timestamp := now }]) },
         [SEvent.toWs wt (Payload.friend_request_received sender now),
          SEvent.toWs w
            (Payload.friend_request_sent (normalizeCode inp))])) := by
  have hlen_ne : (normalizeCode inp).length = 6 → normalizeCode inp ≠ "" := by
    intro hlen h
    rw [h] at hlen
    simp at hlen
  refine ⟨?_, ?_, ?_, ?_, ?_, ?_⟩
  · intro hbad
    rcases hbad with hbad | hbad <;>
      simp [send_friend_request, hbad, sendError, wsSend, hw]
  · intro hlen hnone
    simp [send_friend_request, hlen, hlen_ne hlen, hnone, sendError, wsSend,
      hw]
  · intro hlen hsome hself
    obtain ⟨wt, hwt⟩ := Option.isSome_iff_exists.mp hsome
    have h1 : sender ≠ "" := hself ▸ hlen_ne hlen
    have h2 : sender.length = 6 := hself ▸ hlen
    simp [send_friend_request, hlen, hlen_ne hlen, hwt, hself, h1, h2,
      sendError, wsSend, hw]
  · intro hlen hsome hself hmem
    obtain ⟨wt, hwt⟩ := Option.isSome_iff_exists.mp hsome
    simp [send_friend_request, hlen, hlen_ne hlen, hwt, hself, hmem,
      sendError, wsSend, hw]
  · intro hlen hsome hself hmem hdup
    obtain ⟨wt, hwt⟩ := Option.isSome_iff_exists.mp hsome
    have hany : (st.friend_requests (normalizeCode inp)).any
        (fun req => req.sender_id = sender) = true := by
      rw [List.any_eq_true]
      obtain ⟨r, hr, hrs⟩ := hdup
      exact ⟨r, hr, by simp [hrs]⟩
    simp [send_friend_request, hlen, hlen_ne hlen, hwt, hself, hmem,
      hany, sendError, wsSend, hw]
  · intro wt hlen hwt hself hmem hdup
    have hany : (st.friend_requests (normalizeCode inp)).any
        (fun req => req.sender_id = sender) = false := by
      rw [List.any_eq_false]
      intro r hr
      simp [hdup r hr]
    simp [send_friend_request, hlen, hlen_ne hlen, hwt, hself, hmem,
      hany, wsSend, hw]

/-- Witness for C7 (amended): `TTTTTT` successfully requests friendship with
`ffffff` (canonicalized to the live `FFFFFF`) in the reachable state `u2`. -/
theorem send_friend_request_spec_witness :
    u2.users "TTTTTT" = some 1 ∧
    (∀ r ∈ u2.friend_requests (normalizeCode "ffffff"),
      r.sender_id ≠ "TTTTTT") ∧
    send_friend_request "TTTTTT" (some "ffffff") 9 u2 =
      ({ u2 with
          friend_requests := upd u2.friend_requests (normalizeCode "ffffff")
            (u2.friend_requests (normalizeCode "ffffff") ++
              [{ sender_id := "TTTTTT", timestamp := 9 }]) },
       [SEvent.toWs 2 (Payload.friend_request_received "TTTTTT" 9),
        SEvent.toWs 1
          (Payload.friend_request_sent (normalizeCode "ffffff"))]) :=
  ⟨by decide, by decide,
    (send_friend_request_spec u2 "TTTTTT" "ffffff" 9 1 (by decide)).2.2.2.2.2
      2 (by decide) (by decide) (by decide) (by decide) (by decide)⟩

/-- The friendship-symmetry invariant: `B ∈ friends[A]` iff `A ∈ friends[B]`. -/
def SymFriends (f : Code → Finset Code) : Prop :=
  ∀ a b : Code, a ∈ f b ↔ b ∈ f a

/-- Membership after the in-place rewrite of a friend set. -/
lemma mem_replaceMem {old new x : Code} {s : Finset Code} (h : old ≠ new) :
    x ∈ replaceMem old new s ↔ x ≠ old ∧ (x ∈ s ∨ (x = new ∧ old ∈ s)) := by
  unfold replaceMem
  by_cases hs : old ∈ s
  · simp only [if_pos hs, Finset.mem_insert, Finset.mem_erase]
    constructor
    · rintro (rfl | ⟨hxo, hxs⟩)
      · exact ⟨Ne.symm h, Or.inr ⟨rfl, hs⟩⟩
      · exact ⟨hxo, Or.inl hxs⟩
    · rintro ⟨hxo, hxs | ⟨rfl, _⟩⟩
      · exact Or.inr ⟨hxo, hxs⟩
      · exact Or.inl rfl
  · simp only [if_neg hs]
    constructor
    · intro hxs
      refine ⟨?_, Or.inl hxs⟩
      rintro rfl
      exact hs hxs
    · rintro ⟨hxo, hxs | ⟨rfl, ho⟩⟩
      · exact hxs
      · exact absurd ho hs

/-- Adding the two sides of an accepted friend request keeps symmetry. -/
lemma symFriends_addEdge {f : Code → Finset Code} (hsym : SymFriends f)
    (u s : Code) :
    SymFriends (upd (upd f u (insert s (f u))) s
      (insert u ((upd f u (insert s (f u))) s))) := by
  intro x y
  have h1 := hsym x y
  have h2 := hsym x u
  have h3 := hsym x s
  have h4 := hsym u y
  have h5 := hsym s y
  have h6 := hsym u s
  simp only [upd, Finset.mem_insert]
  by_cases hys : y = s <;> by_cases hyu : y = u <;>
    by_cases hxs : x = s <;> by_cases hxu : x = u <;>
      simp_all

/-- Deleting a friend set that is already empty keeps symmetry. -/
lemma symFriends_delEmpty {f : Code → Finset Code} (hsym : SymFriends f)
    (cur : Code) (hemp : f cur = ∅) :
    SymFriends (upd f cur ∅) := by
  intro x y
  have h1 := hsym x y
  have h2 := hsym x cur
  have h3 := hsym cur y
  simp only [upd]
  by_cases hyc : y = cur <;> by_cases hxc : x = cur <;>
    simp_all [Finset.not_mem_empty]

/-- The friend-set rewrite of the adoption path keeps symmetry. -/
lemma symFriends_adopt {f : Code → Finset Code} (hsym : SymFriends f)
    (cur req : Code) (hne : cur ≠ req) :
    SymFriends (upd (fun c => replaceMem cur req
      ((upd f req (f req ∪ f cur)) c)) cur ∅) := by
  intro x y
  have h1 := hsym x y
  have h2 := hsym x req
  have h3 := hsym x cur
  have h4 := hsym req y
  have h5 := hsym cur y
  have h6 := hsym cur req
  by_cases hyc : y = cur <;> by_cases hyr : y = req <;>
    by_cases hxc : x = cur <;> by_cases hxr : x = req <;>
      simp_all [upd, mem_replaceMem hne, Finset.mem_union,
        Finset.not_mem_empty]

/-- C4 counterexample: friendship symmetry is not preserved by the merge
path of `resume_session`.  `s6` is reachable from `initState` and symmetric
(`TTTTTT` and `FFFFFF` list each other); after `TTTTTT` resumes the
persisted identity `RRRRRR` (state `s7`), `FFFFFF` still lists `TTTTTT`
while `TTTTTT`'s friend set was discarded. -/
theorem merge_breaks_symmetry :
    "FFFFFF" ∈ s6.friends "TTTTTT" ∧ "TTTTTT" ∈ s6.friends "FFFFFF" ∧
    "TTTTTT" ∈ s7.friends "FFFFFF" ∧ "FFFFFF" ∉ s7.friends "TTTTTT" := by
  decide

/-- C4 (amended): friendship symmetry is preserved by friend-request
responses, by disconnect cleanup, and by `resume_session` provided the merge
path only ever discards an empty transient friend set — i.e. when the
resuming connection has no friends or the requested code has no identity
record (the adoption path preserves symmetry unconditionally).  When a
befriended transient code takes the merge path the invariant is lost, as
`merge_breaks_symmetry` shows. -/
theorem friends_symmetry (st : ServerState) (u cur : Code)
    (sIn rIn : Option String) (aIn : Option Bool) (now : Nat)
    (hsym : SymFriends st.friends) :
    SymFriends (respond_friend_request u sIn aIn st).1.friends ∧
    SymFriends (cleanup_user cur now st).friends ∧
    ((st.friends cur = ∅ ∨
        st.user_data (normalizeCode (rIn.getD "")) = none) →
      SymFriends (resume_session cur rIn now st).1.friends) := by
  refine ⟨?_, ?_, ?_⟩
  · by_cases h0 : sIn.getD "" = ""
    · simpa [respond_friend_request, h0] using hsym
    · by_cases h1 : ((st.friend_requests u).filter
          (fun req => req.sender_id ≠ sIn.getD "")).length =
          (st.friend_requests u).length
      · simp only [respond_friend_request, if_neg h0, if_pos h1]
        simpa using hsym
      · by_cases h2 : aIn.getD false = true
        · simp only [respond_friend_request, if_neg h0, if_neg h1, if_pos h2]
          simpa using symFriends_addEdge hsym u (sIn.getD "")
        · simp only [respond_friend_request, if_neg h0, if_neg h1, if_neg h2]
          simpa using hsym
  · unfold cleanup_user
    cases hud : st.user_data cur <;> simp [hud] <;> exact hsym
  · intro hpre
    by_cases h1 : normalizeCode (rIn.getD "") = "" ∨
        (normalizeCode (rIn.getD "")).length ≠ 6
    · simpa [resume_session, h1] using hsym
    · by_cases h2 : normalizeCode (rIn.getD "") = cur
      · simp only [resume_session, if_neg h1, if_pos h2]
        simpa using hsym
      · by_cases h3 : (st.users (normalizeCode (rIn.getD ""))).isSome
        · simp only [resume_session, if_neg h1, if_neg h2, if_pos h3]
          simpa using hsym
        · simp only [resume_session, if_neg h1, if_neg h2, if_neg h3]
          cases hcu : st.users cur with
          | none =>
              by_cases h4 : (st.user_data (normalizeCode (rIn.getD ""))).isSome
              · simp only [hcu, if_pos h4]
                simpa using hsym
              · simp only [hcu, if_neg h4]
                simpa using hsym
          | some websocket =>
              cases hud : st.user_data (normalizeCode (rIn.getD "")) with
              | some d =>
                  have hemp : st.friends cur = ∅ := by
                    rcases hpre with hpre | hpre
                    · exact hpre
                    · rw [hud] at hpre
                      exact absurd hpre (by simp)
                  simp only [hcu, hud]
                  simpa using symFriends_delEmpty hsym cur hemp
              | none =>
                  have hne : cur ≠ normalizeCode (rIn.getD "") :=
                    fun h => h2 h.symm
                  simp only [hcu, hud]
                  simpa using symFriends_adopt hsym cur
                    (normalizeCode (rIn.getD "")) hne

/-- Witness for C4 (amended) at the empty initial state. -/
theorem friends_symmetry_witness :
    SymFriends initState.friends ∧
    (SymFriends (respond_friend_request "AAAAAA" (some "BBBBBB") (some true)
        initState).1.friends ∧
     SymFriends (cleanup_user "DDDDDD" 1 initState).friends ∧
     ((initState.friends "DDDDDD" = ∅ ∨
         initState.user_data (normalizeCode ((some "CCCCCC").getD "")) = none) →
       SymFriends (resume_session "DDDDDD" (some "CCCCCC") 1
         initState).1.friends)) :=
  ⟨fun a b => by simp [initState],
    friends_symmetry initState "AAAAAA" "DDDDDD" (some "BBBBBB")
      (some "CCCCCC") (some true) 1 (fun a b => by simp [initState])⟩

/-! ### Association-list lemmas for `self.messages` -/

lemma dget_eq_none_iff {α : Type} (m : List (String × α)) (k : String) :
    dget m k = none ↔ k ∉ m.map Prod.fst := by
  induction m with
  | nil => simp [dget]
  | cons p rest ih =>
      by_cases hp : p.1 = k
      · simp [dget, hp]
      · simp only [dget, if_neg hp, List.map_cons, List.mem_cons, ih]
        constructor
        · intro h
          rintro (he | hmem)
          · exact hp he.symm
          · exact h hmem
        · intro h hmem
          exact h (Or.inr hmem)

lemma dget_of_mem_nodup {α : Type} {m : List (String × α)} {p : String × α}
    (hn : (m.map Prod.fst).Nodup) (hp : p ∈ m) : dget m p.1 = some p.2 := by
  induction m with
  | nil => simp at hp
  | cons q rest ih =>
      rw [List.map_cons, List.nodup_cons] at hn
      rcases List.mem_cons.mp hp with rfl | hp2
      · simp [dget]
      · have hq : q.1 ≠ p.1 := by
          intro he
          exact hn.1 (by rw [he]; exact List.mem_map.mpr ⟨p, hp2, rfl⟩)
        simp only [dget, if_neg hq]
        exact ih hn.2 hp2

lemma dget_append_single_ne {α : Type} (m : List (String × α))
    (k : String) (v : α) (k' : String) (h : k' ≠ k) :
    dget (m ++ [(k, v)]) k' = dget m k' := by
  induction m with
  | nil =>
      show (if k = k' then some v else dget [] k') = dget ([] : List (String × α)) k'
      rw [if_neg (fun he : k = k' => h he.symm)]
  | cons p rest ih =>
      by_cases hp : p.1 = k' <;> simp [dget, hp, ih]

lemma dget_append_single_self {α : Type} (m : List (String × α))
    (k : String) (v : α) (h : dget m k = none) :
    dget (m ++ [(k, v)]) k = some v := by
  induction m with
  | nil => simp [dget]
  | cons p rest ih =>
      by_cases hp : p.1 = k
      · simp [dget, hp] at h
      · simp only [dget, if_neg hp, List.cons_append] at h ⊢
        exact ih h

lemma dget_map_replace_self {α : Type} (m : List (String × α)) (k : String)
    (v : α) (h : (dget m k).isSome) :
    dget (m.map (fun kv => if kv.1 = k then (k, v) else kv)) k = some v := by
  induction m with
  | nil => simp [dget] at h
  | cons p rest ih =>
      by_cases hp : p.1 = k
      · simp [dget, hp]
      · simp only [dget, if_neg hp] at h
        simp only [List.map_cons, if_neg hp, dget, if_neg hp]
        exact ih h

lemma dget_map_replace_ne {α : Type} (m : List (String × α)) (k : String)
    (v : α) (k' : String) (h : k' ≠ k) :
    dget (m.map (fun kv => if kv.1 = k then (k, v) else kv)) k' =
      dget m k' := by
  induction m with
  | nil => rfl
  | cons p rest ih =>
      by_cases hp : p.1 = k
      · have hk : ¬ k = k' := fun he => h he.symm
        have hp2 : ¬ p.1 = k' := by rw [hp]; exact hk
        simp only [List.map_cons, if_pos hp, dget, if_neg hk, if_neg hp2]
        exact ih
      · simp only [List.map_cons, if_neg hp, dget]
        by_cases hp2 : p.1 = k'
        · simp [hp2]
        · simp [hp2, ih]

lemma dget_dictSet_self {α : Type} (m : List (String × α)) (k : String)
    (v : α) : dget (dictSet m k v) k = some v := by
  unfold dictSet
  by_cases hm : (dget m k).isSome
  · rw [if_pos hm]
    exact dget_map_replace_self m k v hm
  · rw [if_neg hm]
    exact dget_append_single_self m k v (Option.not_isSome_iff_eq_none.mp hm)

lemma dget_dictSet_ne {α : Type} (m : List (String × α)) (k : String)
    (v : α) (k' : String) (h : k' ≠ k) :
    dget (dictSet m k v) k' = dget m k' := by
  unfold dictSet
  by_cases hm : (dget m k).isSome
  · rw [if_pos hm]
    exact dget_map_replace_ne m k v k' h
  · rw [if_neg hm]
    exact dget_append_single_ne m k v k' h

lemma dget_dictDel_self {α : Type} (m : List (String × α)) (k : String) :
    dget (dictDel m k) k = none := by
  induction m with
  | nil => rfl
  | cons p rest ih =>
      by_cases hp : p.1 = k
      · simpa [dictDel, hp] using ih
      · simpa [dictDel, dget, hp] using ih

lemma dget_dictDel_ne {α : Type} (m : List (String × α)) (k k' : String)
    (h : k' ≠ k) : dget (dictDel m k) k' = dget m k' := by
  induction m with
  | nil => rfl
  | cons p rest ih =>
      by_cases hp : p.1 = k
      · have hp2 : ¬ p.1 = k' := by rw [hp]; exact fun he => h he.symm
        simp only [dictDel, if_pos hp, dget, if_neg hp2]
        exact ih
      · by_cases hp2 : p.1 = k'
        · simp only [dictDel, if_neg hp, dget, if_pos hp2]
        · simp only [dictDel, if_neg hp, dget, if_neg hp2]
          exact ih

/-- Looking up the destination key after one migration move. -/
lemma dget_moveOne_new (m : List (String × List MessageRec)) (o n : String)
    (hon : o ≠ n) :
    dget (moveOne m o n) n =
      some ((dget m n).getD [] ++ (dget m o).getD []) := by
  unfold moveOne
  rw [dget_dictDel_ne _ _ _ (Ne.symm hon), dget_dictSet_self]
  by_cases hm : (dget m n).isSome
  · rw [if_pos hm]
  · have hm2 := Option.not_isSome_iff_eq_none.mp hm
    rw [if_neg hm, dget_append_single_self m n [] hm2,
      dget_append_single_ne m n [] o hon, hm2]
    simp

/-- Looking up the source key after one migration move. -/
lemma dget_moveOne_old (m : List (String × List MessageRec)) (o n : String) :
    dget (moveOne m o n) o = none := by
  unfold moveOne
  exact dget_dictDel_self _ o

/-- Keys other than the source and destination are untouched by a move. -/
lemma dget_moveOne_other (m : List (String × List MessageRec)) (o n k : String)
    (hko : k ≠ o) (hkn : k ≠ n) :
    dget (moveOne m o n) k = dget m k := by
  unfold moveOne
  rw [dget_dictDel_ne _ _ _ hko, dget_dictSet_ne _ _ _ _ hkn]
  by_cases hm : (dget m n).isSome
  · rw [if_pos hm]
  · rw [if_neg hm]
    exact dget_append_single_ne m n [] k hkn

/-- Keys untouched by every move of the loop keep their value. -/
lemma fold_moveOne_frame (tm : List (String × String))
    (m : List (String × List MessageRec)) (k : String)
    (hk : ∀ p ∈ tm, k ≠ p.1 ∧ k ≠ p.2) :
    dget (tm.foldl (fun mm kv => moveOne mm kv.1 kv.2) m) k = dget m k := by
  induction tm generalizing m with
  | nil => rfl
  | cons q rest ih =>
      rw [List.foldl_cons,
        ih (moveOne m q.1 q.2) (fun p hp => hk p (List.mem_cons_of_mem q hp))]
      exact dget_moveOne_other m q.1 q.2 k (hk q (List.mem_cons_self q rest)).1
        (hk q (List.mem_cons_self q rest)).2

/-- Full specification of the migration loop when the source keys are
distinct, the destination keys are distinct, and no source key is also a
destination key: every destination holds its old log extended by the moved
log, and every source key is gone. -/
lemma fold_moveOne_spec (tm : List (String × String))
    (m : List (String × List MessageRec))
    (hfst : (tm.map Prod.fst).Nodup)
    (hsnd : (tm.map Prod.snd).Nodup)
    (hcross : ∀ p ∈ tm, ∀ q ∈ tm, p.1 ≠ q.2) :
    (∀ p ∈ tm,
      dget (tm.foldl (fun mm kv => moveOne mm kv.1 kv.2) m) p.2 =
        some ((dget m p.2).getD [] ++ (dget m p.1).getD [])) ∧
    (∀ p ∈ tm,
      dget (tm.foldl (fun mm kv => moveOne mm kv.1 kv.2) m) p.1 = none) := by
  induction tm generalizing m with
  | nil => simp
  | cons q rest ih =>
      have hq : q ∈ q :: rest := List.mem_cons_self q rest
      have hfst2 : (rest.map Prod.fst).Nodup :=
        (List.nodup_cons.mp hfst).2
      have hsnd2 : (rest.map Prod.snd).Nodup :=
        (List.nodup_cons.mp hsnd).2
      have hfst1 : q.1 ∉ rest.map Prod.fst := (List.nodup_cons.mp hfst).1
      have hsnd1 : q.2 ∉ rest.map Prod.snd := (List.nodup_cons.mp hsnd).1
      have hcross2 : ∀ p ∈ rest, ∀ p2 ∈ rest, p.1 ≠ p2.2 :=
        fun p hp p2 hp2 => hcross p (List.mem_cons_of_mem q hp) p2
          (List.mem_cons_of_mem q hp2)
      have hon : q.1 ≠ q.2 := hcross q hq q hq
      obtain ⟨ih1, ih2⟩ := ih (moveOne m q.1 q.2) hfst2 hsnd2 hcross2
      constructor
      · intro p hp
        rcases List.mem_cons.mp hp with rfl | hp2
        · rw [List.foldl_cons,
            fold_moveOne_frame rest (moveOne m p.1 p.2) p.2 ?frame]
          · exact dget_moveOne_new m p.1 p.2 hon
          case frame =>
            intro p2 hp2
            refine ⟨fun he => hcross p2 (List.mem_cons_of_mem p hp2) p hq
              he.symm, fun he => ?_⟩
            exact hsnd1 (he ▸ List.mem_map.mpr ⟨p2, hp2, rfl⟩)
        · rw [List.foldl_cons, ih1 p hp2,
            dget_moveOne_other m q.1 q.2 p.2
              (fun he => hcross q hq p (List.mem_cons_of_mem q hp2) he.symm)
              (fun he => hsnd1 (he ▸ List.mem_map.mpr ⟨p, hp2, rfl⟩)),
            dget_moveOne_other m q.1 q.2 p.1
              (fun he => hfst1 (he ▸ List.mem_map.mpr ⟨p, hp2, rfl⟩))
              (hcross p (List.mem_cons_of_mem q hp2) q hq)]
      · intro p hp
        rcases List.mem_cons.mp hp with rfl | hp2
        · rw [List.foldl_cons,
            fold_moveOne_frame rest (moveOne m p.1 p.2) p.1 ?frame2]
          · exact dget_moveOne_old m p.1 p.2
          case frame2 =>
            intro p2 hp2
            refine ⟨fun he => hfst1 (he ▸ List.mem_map.mpr ⟨p2, hp2, rfl⟩),
              hcross p hq p2 (List.mem_cons_of_mem p hp2)⟩
        · rw [List.foldl_cons]
          exact ih2 p hp2

/-- C3 counterexample: adoption does not purge the transient code from
pending friend requests it *sent*.  In the reachable trace `u1`-`u4`,
`TTTTTT` files a request with `FFFFFF` and then adopts the unused `RRRRRR`
(all adoption conditions hold); afterwards `FFFFFF`'s pending list still
names the retired sender `TTTTTT`, so `TTTTTT` does appear in the pending
requests, contrary to the claim. -/
theorem adopt_leaves_dangling_pending_sender :
    u3.user_data "RRRRRR" = none ∧ u3.users "RRRRRR" = none ∧
    u3.users "TTTTTT" = some 1 ∧
    u4.users "TTTTTT" = none ∧ u4.user_data "TTTTTT" = none ∧
    u4.friend_requests "FFFFFF" =
      [{ sender_id := "TTTTTT", timestamp := 3 }] := by
  decide

/-- C3 (amended): complete specification of the adoption path, minus the
pending-request clause the counterexample refutes: after transient `T`
adopts `R`, `R` holds `T`'s identity record and key status, `R`'s friend set
is exactly `T`'s former friends merged with `R`'s pre-existing persisted
friends, every other user that listed `T` lists `R` instead, every
conversation log whose key contained `T` is reachable under the canonical
key of `(R, counterpart)` (merged after any pre-existing log there), and `T`
is absent from the identity store, the connection registry, the friend
graph, conversation keys, and the pending lists *keyed* by `T` (whose
contents move to `R`) — though `T` may survive as the recorded sender of
pending requests addressed to other users.  The conversation hypotheses say
the logs are keyed by well-formed two-part canonical keys behaving
injectively, which holds in every intended reachable state. -/
theorem resume_adopt_spec (st : ServerState) (T R : Code) (inp : String)
    (now : Nat) (w : WS) (dT : UserDataRec) (ksT : KeyStatus)
    (hcanon : normalizeCode inp = R) (hlen : R.length = 6)
    (hRlive : st.users R = none) (hRnew : st.user_data R = none)
    (hTlive : st.users T = some w) (hTdata : st.user_data T = some dT)
    (hTks : st.key_status T = some ksT)
    (hTT : T ∉ st.friends T) (hTR : T ∉ st.friends R)
    (hnodup : (st.messages.map Prod.fst).Nodup)
    (hwf : ∀ p ∈ st.messages, (pySplit '_' p.1).length = 2)
    (hfresh : ∀ p ∈ st.messages, T ∈ pySplit '_' p.1 →
      T ∉ pySplit '_' (get_conversation_id R (otherOf T p.1)))
    (hinj : ∀ p ∈ st.messages, ∀ q ∈ st.messages, T ∈ pySplit '_' p.1 →
      T ∈ pySplit '_' q.1 → p.1 ≠ q.1 →
      get_conversation_id R (otherOf T p.1) ≠
        get_conversation_id R (otherOf T q.1)) :
    (resume_session T (some inp) now st).1.users R = some w ∧
    (resume_session T (some inp) now st).1.user_data R =
      some { dT with websocket := some w, last_seen := now } ∧
    (resume_session T (some inp) now st).1.key_status R = some ksT ∧
    (resume_session T (some inp) now st).1.friends R =
      st.friends R ∪ st.friends T ∧
    (∀ X, X ≠ T → X ≠ R → T ∈ st.friends X →
      R ∈ (resume_session T (some inp) now st).1.friends X ∧
      T ∉ (resume_session T (some inp) now st).1.friends X) ∧
    (∀ X, X ≠ T → X ≠ R → T ∉ st.friends X →
      (resume_session T (some inp) now st).1.friends X = st.friends X) ∧
    (∀ X, T ∉ (resume_session T (some inp) now st).1.friends X) ∧
    ((resume_session T (some inp) now st).1.users T = none ∧
     (resume_session T (some inp) now st).1.user_data T = none ∧
     (resume_session T (some inp) now st).1.key_status T = none ∧
     (resume_session T (some inp) now st).1.friends T = ∅ ∧
     (resume_session T (some inp) now st).1.friend_requests T = []) ∧
    (st.friend_requests T ≠ [] →
      (resume_session T (some inp) now st).1.friend_requests R =
        st.friend_requests T) ∧
    (∀ p ∈ st.messages, T ∈ pySplit '_' p.1 →
      dget (resume_session T (some inp) now st).1.messages
          (get_conversation_id R (otherOf T p.1)) =
        some ((dget st.messages
          (get_conversation_id R (otherOf T p.1))).getD [] ++ p.2)) ∧
    (∀ k, (dget (resume_session T (some inp) now st).1.messages k).isSome →
      T ∉ pySplit '_' k) := by
  have hRT : ¬ R = T := by
    intro he
    rw [he, hTdata] at hRnew
    exact Option.noConfusion hRnew
  have hTneR : T ≠ R := fun he => hRT he.symm
  have hRne : ¬(R = "" ∨ R.length ≠ 6) := by
    push_neg
    refine ⟨?_, hlen⟩
    intro he
    rw [he] at hlen
    simp at hlen
  have hRsome : ¬((st.users R).isSome = true) := by simp [hRlive]
  have hred : (resume_session T (some inp) now st).1 =
      { users := upd (upd st.users R (some w)) T none
        user_data := upd (upd st.user_data R
            (some { dT with websocket := some w, last_seen := now })) T none
        friends := upd (fun c => replaceMem T R
            ((upd st.friends R (st.friends R ∪ st.friends T)) c)) T ∅
        friend_requests := upd
          (if st.friend_requests T ≠ [] then
            upd st.friend_requests R (st.friend_requests T)
          else st.friend_requests) T []
        messages := migrate_messages T R st.messages
        key_status := upd (upd st.key_status R (some ksT)) T none } := by
    simp only [resume_session, Option.getD_some, hcanon]
    rw [if_neg hRne, if_neg hRT, if_neg hRsome, hTlive, hRnew, hTdata, hTks]
    rfl
  -- migration bookkeeping
  have haffE : ∀ k ∈ (st.messages.map Prod.fst).filter
      (fun k => T ∈ pySplit '_' k),
      ∃ p ∈ st.messages, p.1 = k ∧ T ∈ pySplit '_' k := by
    intro k hk
    obtain ⟨hkmem, hsp⟩ := List.mem_filter.mp hk
    obtain ⟨p, hp, rfl⟩ := List.mem_map.mp hkmem
    exact ⟨p, hp, rfl, by simpa using hsp⟩
  have haffI : ∀ p ∈ st.messages, T ∈ pySplit '_' p.1 →
      p.1 ∈ (st.messages.map Prod.fst).filter (fun k => T ∈ pySplit '_' k) :=
    fun p hp hTp => List.mem_filter.mpr
      ⟨List.mem_map.mpr ⟨p, hp, rfl⟩, by simpa using hTp⟩
  have hall : ((st.messages.map Prod.fst).filter
      (fun k => T ∈ pySplit '_' k)).all
      (fun k => 2 ≤ (pySplit '_' k).length) = true := by
    rw [List.all_eq_true]
    intro k hk
    obtain ⟨p, hp, rfl, _⟩ := haffE k hk
    simp [hwf p hp]
  have hmig : migrate_messages T R st.messages =
      (((st.messages.map Prod.fst).filter (fun k => T ∈ pySplit '_' k)).map
        (fun k => (k, get_conversation_id R (otherOf T k)))).foldl
          (fun mm kv => moveOne mm kv.1 kv.2) st.messages := by
    unfold migrate_messages
    rw [if_pos hall]
  have htm_fst : (((st.messages.map Prod.fst).filter
      (fun k => T ∈ pySplit '_' k)).map
        (fun k => (k, get_conversation_id R (otherOf T k)))).map Prod.fst =
      (st.messages.map Prod.fst).filter (fun k => T ∈ pySplit '_' k) := by
    rw [List.map_map]
    simp [Function.comp_def]
  have htm_snd : (((st.messages.map Prod.fst).filter
      (fun k => T ∈ pySplit '_' k)).map
        (fun k => (k, get_conversation_id R (otherOf T k)))).map Prod.snd =
      ((st.messages.map Prod.fst).filter (fun k => T ∈ pySplit '_' k)).map
        (fun k => get_conversation_id R (otherOf T k)) := by
    rw [List.map_map]
    simp [Function.comp_def]
  have haff_nodup : ((st.messages.map Prod.fst).filter
      (fun k => T ∈ pySplit '_' k)).Nodup := hnodup.filter _
  have hfst2 : ((((st.messages.map Prod.fst).filter
      (fun k => T ∈ pySplit '_' k)).map
        (fun k => (k, get_conversation_id R (otherOf T k)))).map
          Prod.fst).Nodup := by
    rw [htm_fst]
    exact haff_nodup
  have hsnd2 : ((((st.messages.map Prod.fst).filter
      (fun k => T ∈ pySplit '_' k)).map
        (fun k => (k, get_conversation_id R (otherOf T k)))).map
          Prod.snd).Nodup := by
    rw [htm_snd]
    refine List.Nodup.map_on ?_ haff_nodup
    intro x hx y hy he
    by_contra hxy
    obtain ⟨p, hp, rfl, hTx⟩ := haffE x hx
    obtain ⟨q, hq, rfl, hTy⟩ := haffE y hy
    exact hinj p hp q hq hTx hTy hxy he
  have hcross2 : ∀ p ∈ (((st.messages.map Prod.fst).filter
      (fun k => T ∈ pySplit '_' k)).map
        (fun k => (k, get_conversation_id R (otherOf T k)))),
      ∀ q ∈ (((st.messages.map Prod.fst).filter
        (fun k => T ∈ pySplit '_' k)).map
          (fun k => (k, get_conversation_id R (otherOf T k)))),
      p.1 ≠ q.2 := by
    intro p hp q hq
    obtain ⟨x, hx, rfl⟩ := List.mem_map.mp hp
    obtain ⟨y, hy, rfl⟩ := List.mem_map.mp hq
    obtain ⟨p2, hp2, rfl, hTx⟩ := haffE x hx
    obtain ⟨q2, hq2, rfl, hTy⟩ := haffE y hy
    intro he
    have he2 : p2.1 = get_conversation_id R (otherOf T q2.1) := he
    exact hfresh q2 hq2 hTy (he2 ▸ hTx)
  obtain ⟨hfold1, hfold2⟩ := fold_moveOne_spec _ st.messages hfst2 hsnd2 hcross2
  rw [hred]
  refine ⟨?_, ?_, ?_, ?_, ?_, ?_, ?_, ?_, ?_, ?_, ?_⟩
  · simp [upd, hRT]
  · simp [upd, hRT]
  · simp [upd, hRT]
  · simp only [upd, if_neg hRT, if_pos rfl]
    rw [replaceMem, if_neg (by simp [Finset.mem_union, hTT, hTR])]
    simp
  · intro X hXT hXR hTX
    simp only [upd, if_neg hXT, if_neg hXR]
    constructor
    · rw [mem_replaceMem hTneR]
      exact ⟨hRT, Or.inr ⟨rfl, hTX⟩⟩
    · rw [mem_replaceMem hTneR]
      rintro ⟨he, _⟩
      exact he rfl
  · intro X hXT hXR hTX
    simp only [upd, if_neg hXT, if_neg hXR]
    rw [replaceMem, if_neg hTX]
  · intro X
    by_cases hXT : X = T
    · simp [upd, hXT]
    · simp only [upd, if_neg hXT]
      rw [mem_replaceMem hTneR]
      rintro ⟨he, _⟩
      exact he rfl
  · refine ⟨by simp [upd], by simp [upd], by simp [upd], by simp [upd],
      by simp [upd]⟩
  · intro hfr
    simp only [upd, if_neg hRT, if_pos hfr, if_pos rfl]
    simp
  · intro p hp hTp
    have hptm : (p.1, get_conversation_id R (otherOf T p.1)) ∈
        (((st.messages.map Prod.fst).filter (fun k => T ∈ pySplit '_' k)).map
          (fun k => (k, get_conversation_id R (otherOf T k)))) :=
      List.mem_map.mpr ⟨p.1, haffI p hp hTp, rfl⟩
    have hf1 := hfold1 _ hptm
    simp only [hmig]
    rw [hf1, dget_of_mem_nodup hnodup hp]
    simp
  · intro k hk
    simp only [hmig] at hk
    by_cases h1 : ∃ p ∈ (((st.messages.map Prod.fst).filter
        (fun k => T ∈ pySplit '_' k)).map
          (fun k => (k, get_conversation_id R (otherOf T k)))), k = p.1
    · obtain ⟨p, hptm, rfl⟩ := h1
      rw [hfold2 p hptm] at hk
      simp at hk
    · by_cases h2 : ∃ p ∈ (((st.messages.map Prod.fst).filter
          (fun k => T ∈ pySplit '_' k)).map
            (fun k => (k, get_conversation_id R (otherOf T k)))), k = p.2
      · obtain ⟨p, hptm, rfl⟩ := h2
        obtain ⟨x, hx, rfl⟩ := List.mem_map.mp hptm
        obtain ⟨q, hq, rfl, hTx⟩ := haffE x hx
        exact hfresh q hq hTx
      · push_neg at h1 h2
        rw [fold_moveOne_frame _ st.messages k
          (fun p hp => ⟨h1 p hp, h2 p hp⟩)] at hk
        intro hTk
        have hknone : dget st.messages k ≠ none := by
          intro he
          rw [he] at hk
          simp at hk
        have hkmem : k ∈ st.messages.map Prod.fst := by
          by_contra hno
          exact hknone ((dget_eq_none_iff st.messages k).mpr hno)
        have hkaff : k ∈ (st.messages.map Prod.fst).filter
            (fun k => T ∈ pySplit '_' k) :=
          List.mem_filter.mpr ⟨hkmem, by simpa using hTk⟩
        exact h1 (k, get_conversation_id R (otherOf T k))
          (List.mem_map.mpr ⟨k, hkaff, rfl⟩) rfl

/-- The spec scenario for adoption: transient `TTTTTT` (live on socket 1)
with friends `AAAAAA` and `BBBBBB` and a conversation log with `AAAAAA`. -/
def adoptWitnessState : ServerState :=
  { users := upd initState.users "TTTTTT" (some 1)
    user_data := upd initState.user_data "TTTTTT"
      (some { websocket := some 1, public_key := none, last_seen := 3 })
    friends := upd (upd (upd initState.friends "TTTTTT" {"AAAAAA", "BBBBBB"})
      "AAAAAA" {"TTTTTT"}) "BBBBBB" {"TTTTTT"}
    friend_requests := fun _ => []
    messages := [("AAAAAA_TTTTTT",
      [{ sender_id := "TTTTTT", target_id := "AAAAAA",
         encrypted_message := "ct1", timestamp := 4 }])]
    key_status := upd initState.key_status "TTTTTT"
      (some { private_key_loaded := true, public_key_loaded := false }) }

/-- Witness for C3 (amended): `TTTTTT` adopts `rrrrrr` (canonicalized to
`RRRRRR`) in the scenario state. -/
theorem resume_adopt_spec_witness :
    adoptWitnessState.users "TTTTTT" = some 1 ∧
    adoptWitnessState.user_data "RRRRRR" = none ∧
    ((resume_session "TTTTTT" (some "rrrrrr") 9 adoptWitnessState).1.users
        "RRRRRR" = some 1 ∧
     (resume_session "TTTTTT" (some "rrrrrr") 9 adoptWitnessState).1.user_data
        "RRRRRR" = some { websocket := some 1, public_key := none,
                          last_seen := 9 } ∧
     (resume_session "TTTTTT" (some "rrrrrr") 9
        adoptWitnessState).1.key_status "RRRRRR" =
        some { private_key_loaded := true, public_key_loaded := false } ∧
     (resume_session "TTTTTT" (some "rrrrrr") 9 adoptWitnessState).1.friends
        "RRRRRR" =
        adoptWitnessState.friends "RRRRRR" ∪ adoptWitnessState.friends
          "TTTTTT" ∧
     (∀ X, X ≠ "TTTTTT" → X ≠ "RRRRRR" →
        ("TTTTTT" : Code) ∈ adoptWitnessState.friends X →
        ("RRRRRR" : Code) ∈ (resume_session "TTTTTT" (some "rrrrrr") 9
          adoptWitnessState).1.friends X ∧
        ("TTTTTT" : Code) ∉ (resume_session "TTTTTT" (some "rrrrrr") 9
          adoptWitnessState).1.friends X) ∧
     (∀ X, X ≠ "TTTTTT" → X ≠ "RRRRRR" →
        ("TTTTTT" : Code) ∉ adoptWitnessState.friends X →
        (resume_session "TTTTTT" (some "rrrrrr") 9
          adoptWitnessState).1.friends X = adoptWitnessState.friends X) ∧
     (∀ X, ("TTTTTT" : Code) ∉ (resume_session "TTTTTT" (some "rrrrrr") 9
        adoptWitnessState).1.friends X) ∧
     ((resume_session "TTTTTT" (some "rrrrrr") 9 adoptWitnessState).1.users
        "TTTTTT" = none ∧
      (resume_session "TTTTTT" (some "rrrrrr") 9
        adoptWitnessState).1.user_data "TTTTTT" = none ∧
      (resume_session "TTTTTT" (some "rrrrrr") 9
        adoptWitnessState).1.key_status "TTTTTT" = none ∧
      (resume_session "TTTTTT" (some "rrrrrr") 9 adoptWitnessState).1.friends
        "TTTTTT" = ∅ ∧
      (resume_session "TTTTTT" (some "rrrrrr") 9
        adoptWitnessState).1.friend_requests "TTTTTT" = []) ∧
     (adoptWitnessState.friend_requests "TTTTTT" ≠ [] →
      (resume_session "TTTTTT" (some "rrrrrr") 9
        adoptWitnessState).1.friend_requests "RRRRRR" =
        adoptWitnessState.friend_requests "TTTTTT") ∧
     (∀ p ∈ adoptWitnessState.messages,
        ("TTTTTT" : Code) ∈ pySplit '_' p.1 →
        dget (resume_session "TTTTTT" (some "rrrrrr") 9
            adoptWitnessState).1.messages
          (get_conversation_id "RRRRRR" (otherOf "TTTTTT" p.1)) =
          some ((dget adoptWitnessState.messages
            (get_conversation_id "RRRRRR" (otherOf "TTTTTT" p.1))).getD []
              ++ p.2)) ∧
     (∀ k, (dget (resume_session "TTTTTT" (some "rrrrrr") 9
          adoptWitnessState).1.messages k).isSome →
        ("TTTTTT" : Code) ∉ pySplit '_' k)) :=
  ⟨by decide, by decide,
    resume_adopt_spec adoptWitnessState "TTTTTT" "RRRRRR" "rrrrrr" 9 1
      { websocket := some 1, public_key := none, last_seen := 3 }
      { private_key_loaded := true, public_key_loaded := false }
      (by decide) (by decide) (by decide) (by decide) (by decide) (by decide)
      (by decide) (by decide) (by decide) (by decide) (by decide) (by decide)
      (by decide)⟩

end Chat
